import Mathlib

set_option maxRecDepth 100000

/-!
Verification of the iot-authentication Firebase functions
(`requestNewToken`, `signSerialNumber`, `addGarden`, `removeGarden`)
against their natural-language specification.

The handlers are shallowly embedded: the document store and the identity
provider are modelled as an explicit `World` threaded through each handler,
and possibly-failing external calls are controlled by an `Env` of oracles.
The key derivation (Node's `createHmac("sha256", key).digest("hex")`) is
modelled by a full executable HMAC-SHA256 over byte lists.
-/

namespace IotAuth

/-! ## SHA-256 over `List Nat` (bytes), executable, structural recursion only -/

def w32 (n : Nat) : Nat := n % 4294967296

def rotr (n x : Nat) : Nat := w32 ((x >>> n) ||| (x <<< (32 - n)))

def bsig0 (x : Nat) : Nat := (rotr 2 x) ^^^ (rotr 13 x) ^^^ (rotr 22 x)

def bsig1 (x : Nat) : Nat := (rotr 6 x) ^^^ (rotr 11 x) ^^^ (rotr 25 x)

def ssig0 (x : Nat) : Nat := (rotr 7 x) ^^^ (rotr 18 x) ^^^ (x >>> 3)

def ssig1 (x : Nat) : Nat := (rotr 17 x) ^^^ (rotr 19 x) ^^^ (x >>> 10)

def chF (x y z : Nat) : Nat := (x &&& y) ^^^ ((x ^^^ 0xffffffff) &&& z)

def majF (x y z : Nat) : Nat := (x &&& y) ^^^ (x &&& z) ^^^ (y &&& z)

def shaK : List Nat :=
  [1116352408, 1899447441, 3049323471, 3921009573, 961987163, 1508970993,
   2453635748, 2870763221, 3624381080, 310598401, 607225278, 1426881987,
   1925078388, 2162078206, 2614888103, 3248222580, 3835390401, 4022224774,
   264347078, 604807628, 770255983, 1249150122, 1555081692, 1996064986,
   2554220882, 2821834349, 2952996808, 3210313671, 3336571891, 3584528711,
   113926993, 338241895, 666307205, 773529912, 1294757372, 1396182291,
   1695183700, 1986661051, 2177026350, 2456956037, 2730485921, 2820302411,
   3259730800, 3345764771, 3516065817, 3600352804, 4094571909, 275423344,
   430227734, 506948616, 659060556, 883997877, 958139571, 1322822218,
   1537002063, 1747873779, 1955562222, 2024104815, 2227730452, 2361852424,
   2428436474, 2756734187, 3204031479, 3329325298]

/-- The eight 32-bit working variables of the SHA-256 compression function. -/
structure S8 where
  a : Nat
  b : Nat
  c : Nat
  d : Nat
  e : Nat
  f : Nat
  g : Nat
  h : Nat
deriving DecidableEq

def shaInit : S8 :=
  ⟨1779033703, 3144134277, 1013904242, 2773480762,
   1359893119, 2600822924, 528734635, 1541459225⟩

def shaRound (s : S8) (kw : Nat × Nat) : S8 :=
  let t1 := w32 (s.h + bsig1 s.e + chF s.e s.f s.g + kw.1 + kw.2)
  let t2 := w32 (bsig0 s.a + majF s.a s.b s.c)
  ⟨w32 (t1 + t2), s.a, s.b, s.c, w32 (s.d + t1), s.e, s.f, s.g⟩

/-- Extend the sixteen block words to the 64-entry message schedule. -/
def schedule (ws : Array Nat) : Array Nat :=
  (List.range 48).foldl
    (fun acc i =>
      let t := i + 16
      acc.push (w32 (ssig1 (acc.getD (t - 2) 0) + acc.getD (t - 7) 0 +
                     ssig0 (acc.getD (t - 15) 0) + acc.getD (t - 16) 0)))
    ws

def compressBlock (s : S8) (block : List Nat) : S8 :=
  let ws := (schedule block.toArray).toList
  let f := (shaK.zip ws).foldl shaRound s
  ⟨w32 (s.a + f.a), w32 (s.b + f.b), w32 (s.c + f.c), w32 (s.d + f.d),
   w32 (s.e + f.e), w32 (s.f + f.f), w32 (s.g + f.g), w32 (s.h + f.h)⟩

/-- Group bytes into big-endian 32-bit words (input length a multiple of 4). -/
def bytesToWords : List Nat → List Nat
  | b0 :: b1 :: b2 :: b3 :: rest => (((b0 * 256 + b1) * 256 + b2) * 256 + b3) :: bytesToWords rest
  | _ => []

/-- Split a word list into 16-word blocks (input length a multiple of 16). -/
def chunk16 : List Nat → List (List Nat)
  | w0 :: w1 :: w2 :: w3 :: w4 :: w5 :: w6 :: w7 ::
    w8 :: w9 :: w10 :: w11 :: w12 :: w13 :: w14 :: w15 :: rest =>
      [w0, w1, w2, w3, w4, w5, w6, w7, w8, w9, w10, w11, w12, w13, w14, w15] :: chunk16 rest
  | _ => []

/-- Big-endian byte expansion of `n` into `k` bytes. -/
def natToBytesBE (k n : Nat) : List Nat :=
  match k with
  | 0 => []
  | k + 1 => natToBytesBE k (n / 256) ++ [n % 256]

/-- SHA-256 padding: append 0x80, zeros to 56 mod 64, then the 8-byte bit length. -/
def shaPad (msg : List Nat) : List Nat :=
  let l := msg.length
  let zeros := (120 - ((l + 1) % 64)) % 64
  msg ++ [0x80] ++ List.replicate zeros 0 ++ natToBytesBE 8 (l * 8)

def sha256S8 (msg : List Nat) : S8 :=
  (chunk16 (bytesToWords (shaPad msg))).foldl compressBlock shaInit

def wordToBytes (w : Nat) : List Nat :=
  [w / 16777216 % 256, w / 65536 % 256, w / 256 % 256, w % 256]

/-- SHA-256 digest as 32 bytes. -/
def sha256Bytes (msg : List Nat) : List Nat :=
  let s := sha256S8 msg
  wordToBytes s.a ++ wordToBytes s.b ++ wordToBytes s.c ++ wordToBytes s.d ++
  wordToBytes s.e ++ wordToBytes s.f ++ wordToBytes s.g ++ wordToBytes s.h

def hexDigit (n : Nat) : Char :=
  (("0123456789abcdef".data).getD n '0')

/-- Lowercase hex rendering of one 32-bit word (8 characters). -/
def wordToHex (w : Nat) : String :=
  String.mk [hexDigit (w / 268435456 % 16), hexDigit (w / 16777216 % 16),
             hexDigit (w / 1048576 % 16), hexDigit (w / 65536 % 16),
             hexDigit (w / 4096 % 16), hexDigit (w / 256 % 16),
             hexDigit (w / 16 % 16), hexDigit (w % 16)]

/-- SHA-256 digest, lowercase hex (64 characters). -/
def sha256Hex (msg : List Nat) : String :=
  let s := sha256S8 msg
  wordToHex s.a ++ wordToHex s.b ++ wordToHex s.c ++ wordToHex s.d ++
  wordToHex s.e ++ wordToHex s.f ++ wordToHex s.g ++ wordToHex s.h

/-- HMAC-SHA256 over byte lists, lowercase hex output (RFC 2104). -/
def hmacSha256Hex (key msg : List Nat) : String :=
  let k0 := if key.length > 64 then sha256Bytes key else key
  let kp := k0 ++ List.replicate (64 - k0.length) 0
  let ipadK := kp.map (fun b => b ^^^ 0x36)
  let opadK := kp.map (fun b => b ^^^ 0x5c)
  sha256Hex (opadK ++ sha256Bytes (ipadK ++ msg))

/-- UTF-8 bytes of an ASCII string (all strings handled here are ASCII). -/
def strBytes (s : String) : List Nat := s.data.map Char.toNat

/-! ## Key derivation (`getUniqueKey` in `index.ts`) -/

/-- The string `JSON.stringify({serial: serial, signingKey: SIGNING_KEY})` produces:
field order as inserted, no spaces. Faithful for strings containing no characters
that JSON escapes (all serials and keys used here are ASCII alphanumeric). -/
def jsonSerialSigning (serial signingKey : String) : String :=
  "\x7b\"serial\":\"" ++ serial ++ "\",\"signingKey\":\"" ++ signingKey ++ "\"\x7d"

/-- Model of Node's `crypto.createHmac("sha256", key)` object: the HMAC key bytes
and the message bytes accumulated by `update` calls (none are made in this code). -/
structure HmacState where
  key : List Nat
  acc : List Nat

def createHmac (key : String) : HmacState := ⟨strBytes key, []⟩

/-- Model of `.digest("hex")`: HMAC-SHA256 of the accumulated message under the key. -/
def HmacState.digestHex (st : HmacState) : String := hmacSha256Hex st.key st.acc

/-- `getUniqueKey` from the source: `createHmac("sha256", JSON.stringify({serial,
signingKey})).digest("hex")` — note the JSON string is passed as the HMAC *key*
and no `update` call is made, so the HMAC message is empty. -/
def getUniqueKey (signingKey serial : String) : String :=
  (createHmac (jsonSerialSigning serial signingKey)).digestHex

/-- Written from the spec sentence for `derive_key`: `HMAC-SHA256(key =
signing_secret, message = canonical_JSON({serial, signingKey: signing_secret}))`,
hex-encoded. Stated only to compare against `getUniqueKey`. -/
def deriveKeySpec (signingKey serial : String) : String :=
  hmacSha256Hex (strBytes signingKey) (strBytes (jsonSerialSigning serial signingKey))

/-! ## Data model: device records, document store, account custom claims -/

/-- A device record at `garden/<serial>`; every field optional. -/
structure Garden where
  claimed_by : Option String
  nickname : Option String
  last_token : Option String
  last_token_time : Option Int
  last_sync_time : Option Int
deriving DecidableEq

def Garden.empty : Garden := ⟨none, none, none, none, none⟩

/-- `snapshot.exists()`: a Firebase node exists iff it holds any data. -/
def Garden.existsB (g : Garden) : Bool :=
  g.claimed_by.isSome || g.nickname.isSome || g.last_token.isSome ||
  g.last_token_time.isSome || g.last_sync_time.isSome

/-- External state: the realtime database (`garden/<serial>` records) and the
identity provider's per-account custom claim `claimedGardens`. -/
structure World where
  db : String → Garden
  claims : String → List String

def World.setGardenField (w : World) (serial : String) (f : Garden → Garden) : World :=
  ⟨fun s => if s = serial then f (w.db s) else w.db s, w.claims⟩

def World.setClaimedBy (w : World) (serial uid : String) : World :=
  w.setGardenField serial (fun g => ⟨some uid, g.nickname, g.last_token, g.last_token_time, g.last_sync_time⟩)

def World.setNickname (w : World) (serial nick : String) : World :=
  w.setGardenField serial (fun g => ⟨g.claimed_by, some nick, g.last_token, g.last_token_time, g.last_sync_time⟩)

def World.setLastToken (w : World) (serial tok : String) : World :=
  w.setGardenField serial (fun g => ⟨g.claimed_by, g.nickname, some tok, g.last_token_time, g.last_sync_time⟩)

def World.setLastTokenTime (w : World) (serial : String) (t : Int) : World :=
  w.setGardenField serial (fun g => ⟨g.claimed_by, g.nickname, g.last_token, some t, g.last_sync_time⟩)

def World.removeClaimedBy (w : World) (serial : String) : World :=
  w.setGardenField serial (fun g => ⟨none, g.nickname, g.last_token, g.last_token_time, g.last_sync_time⟩)

def World.removeNickname (w : World) (serial : String) : World :=
  w.setGardenField serial (fun g => ⟨g.claimed_by, none, g.last_token, g.last_token_time, g.last_sync_time⟩)

/-- `setCustomUserClaims(uid, {claimedGardens: l})` replaces the account's claim set. -/
def World.setClaims (w : World) (uid : String) (l : List String) : World :=
  ⟨w.db, fun u => if u = uid then l else w.claims u⟩

/-- An HTTP response: status code and plain-text body. -/
abbrev Resp := Nat × String

/-- JavaScript truthiness of an optional query-string parameter: absent and
empty string are both falsy. -/
def truthy : Option String → Bool
  | none => false
  | some s => s != ""

/-- Whitespace as stripped by JavaScript's `String.prototype.trim` (ASCII part). -/
def isJsWs (c : Char) : Bool := c = ' ' || c = '\t' || c = '\n' || c = '\r'

/-- Executable model of `String.prototype.trim`: drop leading and trailing
whitespace. -/
def jsTrim (s : String) : String :=
  String.mk (((s.data.dropWhile isJsWs).reverse.dropWhile isJsWs).reverse)

/-- The serial validation of `requestNewToken`: every character in `0-9` or
`a-z`, and length between 2 and 24. -/
def validSerial (s : String) : Bool :=
  s.data.all (fun c => ('0' ≤ c && c ≤ '9') || ('a' ≤ c && c ≤ 'z')) &&
  decide (2 ≤ s.length) && decide (s.length ≤ 24)

/-! ## `requestNewToken` (part_002 revision: 45-minute threshold, annotated body)

The handler has no try/catch, so its external calls are modelled as succeeding;
`now` is the value of `timestamp()` during the request (the code calls
`timestamp()` more than once in one request; both calls are modelled as the
same second), and `freshToken` is the value `auth.createCustomToken` returns
when the issue path is taken. -/

def ttlRefreshThreshold : Int := 45 * 60

def requestNewToken (signingKey : String) (qserial qkey : Option String)
    (w : World) (now : Int) (freshToken : String) : Resp × World :=
  if !(truthy qserial) || !(truthy qkey) then ((400, "missing_parameter"), w)
  else
    let serial := qserial.getD ""
    if !(validSerial serial) then ((400, "invalid_serial"), w)
    else
      let expectedKey := getUniqueKey signingKey serial
      if qkey != some expectedKey then ((401, "wrong_key"), w)
      else
        let garden := w.db serial
        let issue : Resp × World :=
          let generatedTime := now
          let w1 := w.setLastTokenTime serial generatedTime
          let w2 := w1.setLastToken serial freshToken
          let tokenTimeLeft := generatedTime + ttlRefreshThreshold - now
          ((200, freshToken ++ ":" ++ toString tokenTimeLeft ++ ":new"), w2)
        if garden.existsB && garden.last_token.isSome && garden.last_token_time.isSome then
          let tokenTimeLeft := (garden.last_token_time.getD 0) + ttlRefreshThreshold - now
          if tokenTimeLeft > 0 then
            ((200, (garden.last_token.getD "") ++ ":" ++ toString tokenTimeLeft ++ ":cached"), w)
          else issue
        else issue

/-! ## `signSerialNumber` (pure: no database access) -/

def signSerialNumber (signingKey password : String) (qserial qpassword : Option String) : Resp :=
  if !(truthy qserial) || !(truthy qpassword) then (400, "missing_parameter")
  else if qpassword != some password then (401, "wrong_password")
  else (200, getUniqueKey signingKey (qserial.getD ""))

/-! ## `addGarden` and `removeGarden`

Both wrap their body in try/catch mapping any exception to `invalid_token`
(400). External calls may fail: `Env` carries the verification oracle and
per-call success flags for document-store reads/writes and the custom-claims
write. A body returns `Except World (Resp × World)`; the `error` case carries
the world at the moment of the throw (side effects before it persist). -/

/-- Result of `verifyIdToken`: the account id and the `claimedGardens` custom
claim, which may be absent from the token. -/
structure IdToken where
  uid : String
  claimedGardens : Option (List String)
deriving DecidableEq

structure Env where
  verify : String → Except Unit IdToken
  nickGetOk : String → Bool
  gardenGetOk : String → Bool
  writeOk : String → String → Bool
  claimsSetOk : Bool

/-- The nickname-conflict loop of `addGarden`: for each claimed serial, read
`garden/<s>/nickname` and compare to the requested nickname (a missing node
reads as `null`, which never equals a string). -/
def nickLoop (env : Env) (w : World) (nickname : String) : List String → Except Unit Bool
  | [] => .ok false
  | s :: rest =>
    if !(env.nickGetOk s) then .error ()
    else if (w.db s).nickname = some nickname then .ok true
    else nickLoop env w nickname rest

/-- The line `claimedGardens ? [...claimedGardens].filter(g => g === serial) : []`,
shared by `addGarden` and `removeGarden` (named `claimedGardensWithoutCurrent`
in the source). Note the filter keeps exactly the elements *equal* to `serial`. -/
def claimedFilter (cg : Option (List String)) (serial : String) : List String :=
  match cg with
  | some l => l.filter (fun g => g == serial)
  | none => []

def addGardenBody (env : Env) (w : World) (token serial nickname : String) :
    Except World (Resp × World) :=
  match env.verify token with
  | .error _ => .error w
  | .ok idToken =>
    let uid := idToken.uid
    let cg := idToken.claimedGardens
    if (match cg with | some l => decide (l.length > 10) | none => false) then
      .ok ((403, "too_many_gardens"), w)
    else
      match nickLoop env w nickname (cg.getD []) with
      | .error _ => .error w
      | .ok true => .ok ((403, "garden_nickname_conflict"), w)
      | .ok false =>
        if !(env.gardenGetOk serial) then .error w
        else
          let garden := w.db serial
          if !garden.existsB then .ok ((404, "invalid_serial"), w)
          else
            let isClaimedByOtherAccount :=
              garden.claimed_by.isSome && garden.claimed_by != some uid
            if isClaimedByOtherAccount then .ok ((403, "garden_already_claimed"), w)
            else if !(env.writeOk serial "claimed_by") then .error w
            else
              let w1 := w.setClaimedBy serial uid
              if !(env.writeOk serial "nickname") then .error w1
              else
                let w2 := w1.setNickname serial nickname
                let claimedGardensWithoutCurrent := claimedFilter cg serial
                if !env.claimsSetOk then .error w2
                else
                  let w3 := w2.setClaims uid (claimedGardensWithoutCurrent ++ [serial])
                  .ok ((200, "success"), w3)

def addGarden (env : Env) (w : World) (qtoken qserial qnickname : Option String) :
    Resp × World :=
  if !(truthy qtoken) || !(truthy qserial) || !(truthy qnickname) then
    ((400, "missing_parameter"), w)
  else
    match addGardenBody env w (qtoken.getD "") (jsTrim (qserial.getD ""))
        (jsTrim (qnickname.getD "")) with
    | .ok rw => rw
    | .error w1 => ((400, "invalid_token"), w1)

def removeGardenBody (env : Env) (w : World) (token serial : String) :
    Except World (Resp × World) :=
  match env.verify token with
  | .error _ => .error w
  | .ok idToken =>
    let uid := idToken.uid
    let cg := idToken.claimedGardens
    if !(env.gardenGetOk serial) then .error w
    else
      let garden := w.db serial
      if !garden.existsB then .ok ((404, "invalid_serial"), w)
      else
        let claimedGardensWithoutCurrent := claimedFilter cg serial
        if !env.claimsSetOk then .error w
        else
          let w1 := w.setClaims uid claimedGardensWithoutCurrent
          if !(garden.claimed_by.isSome) || garden.claimed_by != some uid then
            .ok ((403, "garden_not_claimed"), w1)
          else if !(env.writeOk serial "claimed_by") then .error w1
          else
            let w2 := w1.removeClaimedBy serial
            if !(env.writeOk serial "nickname") then .error w2
            else
              let w3 := w2.removeNickname serial
              .ok ((200, "success"), w3)

def removeGarden (env : Env) (w : World) (qtoken qserial : Option String) :
    Resp × World :=
  if !(truthy qtoken) || !(truthy qserial) then ((400, "missing_parameter"), w)
  else
    match removeGardenBody env w (qtoken.getD "") (jsTrim (qserial.getD "")) with
    | .ok rw => rw
    | .error w1 => ((400, "invalid_token"), w1)

/-! ## Sanity checks of the hash embedding against published test vectors -/

theorem sha256_empty_vector : sha256Hex (strBytes "") =
    "e3b0c44298fc1c149afbf4c8996fb92427ae41e4649b934ca495991b7852b855" := by decide

theorem hmac_rfc_vector : hmacSha256Hex (strBytes "key")
    (strBytes "The quick brown fox jumps over the lazy dog") =
    "f7bc83f430538424b13298e6aa6fb143ef4d59a14946175997479dbc2d1a3cd8" := by decide

/-! ## C4: key derivation formula -/

/-- C4 counterexample: the claim says `derive_key(serial)` is HMAC-SHA256 with
key = the signing secret and message = the JSON object. The code instead passes
the JSON string as the HMAC key and hashes an empty message (`digest` is called
with no `update`), so at signing secret `"k"` and serial `"ab"` the two values
differ. -/
theorem getUniqueKey_ne_deriveKeySpec : getUniqueKey "k" "ab" ≠ deriveKeySpec "k" "ab" := by
  decide

/-- C4 (amended): for every serial and signing secret, `derive_key` equals the
hex HMAC-SHA256 whose *key* is the JSON serialization
`JSON.stringify({serial, signingKey})` (fields in that order) and whose
*message* is empty. -/
theorem getUniqueKey_eq_hmac_json_key_empty_msg (signingKey serial : String) :
    getUniqueKey signingKey serial =
      hmacSha256Hex (strBytes (jsonSerialSigning serial signingKey)) [] := rfl

/-! ## C1: removeGarden claimed-set cleanup -/

def envC1 : Env :=
  ⟨fun t => if t = "tok" then .ok ⟨"u1", some ["g1", "g2"]⟩ else .error (),
   fun _ => true, fun _ => true, fun _ _ => true, true⟩

def wC1 : World :=
  ⟨fun s => if s = "g1" then ⟨some "u2", some "n", none, none, none⟩ else Garden.empty,
   fun _ => []⟩

/-- C1 evaluation at the failing input: account `u1` has claimed set
`["g1", "g2"]` and releases `"g1"`, which exists but is owned by `u2`. The
cleanup write does run before the ownership check (the request fails with
`garden_not_claimed` yet the claim set is rewritten), but
`filter(g => g === serial)` rewrites the set to `["g1"]` — keeping exactly the
serial being removed and dropping `"g2"` — instead of the claimed `["g2"]`. -/
theorem removeGarden_cleanup_keeps_only_removed_serial :
    (removeGarden envC1 wC1 (some "tok") (some "g1")).1 = (403, "garden_not_claimed") ∧
    ((removeGarden envC1 wC1 (some "tok") (some "g1")).2).claims "u1" = ["g1"] := by
  constructor
  · decide
  · decide

/-! ## C2: addGarden claimed-set update -/

def envC2 : Env :=
  ⟨fun t => if t = "tok" then .ok ⟨"u1", some ["g1"]⟩ else .error (),
   fun _ => true, fun _ => true, fun _ _ => true, true⟩

def wC2 : World :=
  ⟨fun s =>
    if s = "g1" then ⟨some "u1", some "n1", none, none, none⟩
    else if s = "g2" then ⟨none, none, none, none, some 0⟩
    else Garden.empty,
   fun _ => []⟩

/-- C2 evaluation at the failing input: account `u1` with claimed set `["g1"]`
successfully claims `"g2"`, but the resulting claimed set is `["g2"]` — the
`filter(g => g === serial)` keeps only elements equal to the new serial, so the
previously claimed `"g1"` is dropped instead of kept (claim expects
`["g1", "g2"]`). -/
theorem addGarden_claims_drop_other_serials :
    (addGarden envC2 wC2 (some "tok") (some "g2") (some "n2")).1 = (200, "success") ∧
    ((addGarden envC2 wC2 (some "tok") (some "g2") (some "n2")).2).claims "u1" = ["g2"] := by
  constructor
  · decide
  · decide

/-! ## C3: claimed-gardens limit -/

def envC3 : Env :=
  ⟨fun t =>
    if t = "tok" then
      .ok ⟨"u1", some ["g1", "g2", "g3", "g4", "g5", "g6", "g7", "g8", "g9", "g10"]⟩
    else .error (),
   fun _ => true, fun _ => true, fun _ _ => true, true⟩

def wC3 : World :=
  ⟨fun s => if s = "gx" then ⟨none, none, none, none, some 0⟩ else Garden.empty,
   fun _ => []⟩

/-- C3 counterexample: an account that already holds 10 claimed serials is *not*
rejected — the check is `claimedGardens.length > 10`, so this request succeeds
instead of failing with `too_many_gardens` as the claim states. -/
theorem addGarden_ten_claims_not_rejected :
    (addGarden envC3 wC3 (some "tok") (some "gx") (some "nick")).1 = (200, "success") ∧
    (addGarden envC3 wC3 (some "tok") (some "gx") (some "nick")).1 ≠ (403, "too_many_gardens") := by
  constructor
  · decide
  · decide

/-! ## Helper lemmas -/

lemma wordToHex_length (w : Nat) : (wordToHex w).length = 8 := rfl

lemma sha256Hex_length (m : List Nat) : (sha256Hex m).length = 64 := by
  simp [sha256Hex, String.length_append, wordToHex_length]

lemma getUniqueKey_length (signingKey serial : String) :
    (getUniqueKey signingKey serial).length = 64 :=
  sha256Hex_length _

lemma getUniqueKey_ne_empty (signingKey serial : String) :
    getUniqueKey signingKey serial ≠ "" := by
  intro h
  have h64 := getUniqueKey_length signingKey serial
  rw [h] at h64
  simp at h64

lemma truthy_some_of_ne (s : String) (h : s ≠ "") : truthy (some s) = true := by
  simp [truthy, h]

/-! ## C7: serial validation precedes the key check -/

/-- C7: a present but invalid serial (not lowercase alphanumeric of length
2-24) is always answered with `invalid_serial` and HTTP 400 and no state
change, for *every* value of the key parameter — in particular whether or not
it equals the derived key — because the serial check runs before the key
check. -/
theorem requestNewToken_invalid_serial_before_key (signingKey serial k : String)
    (w : World) (now : Int) (fresh : String)
    (hs : serial ≠ "") (hk : k ≠ "") (hinv : validSerial serial = false) :
    requestNewToken signingKey (some serial) (some k) w now fresh =
      ((400, "invalid_serial"), w) := by
  unfold requestNewToken
  simp [truthy_some_of_ne _ hs, truthy_some_of_ne _ hk, hinv]

def wC7 : World := ⟨fun _ => Garden.empty, fun _ => []⟩

/-- C7 witness: uppercase serial `"AB"` with an arbitrary key is rejected as
`invalid_serial`. -/
theorem requestNewToken_invalid_serial_witness :
    requestNewToken "sk" (some "AB") (some "x") wC7 0 "tk" = ((400, "invalid_serial"), wC7) :=
  requestNewToken_invalid_serial_before_key "sk" "AB" "x" wC7 0 "tk"
    (by decide) (by decide) (by decide)

/-! ## C10: empty-string parameters are treated as missing -/

/-- C10: in every endpoint the presence check is a JavaScript falsiness test,
so a parameter equal to the empty string is answered with `missing_parameter`
(HTTP 400) and no state change — in particular `requestNewToken` with
`serial = ""` never reaches the `invalid_serial` check. -/
theorem empty_param_is_missing_parameter :
    (∀ sk (qk : Option String) w (now : Int) f,
      requestNewToken sk (some "") qk w now f = ((400, "missing_parameter"), w)) ∧
    (∀ sk (qs : Option String) w (now : Int) f,
      requestNewToken sk qs (some "") w now f = ((400, "missing_parameter"), w)) ∧
    (∀ sk pw (qp : Option String),
      signSerialNumber sk pw (some "") qp = (400, "missing_parameter")) ∧
    (∀ sk pw (qs : Option String),
      signSerialNumber sk pw qs (some "") = (400, "missing_parameter")) ∧
    (∀ env w (qs qn : Option String),
      addGarden env w (some "") qs qn = ((400, "missing_parameter"), w)) ∧
    (∀ env w (qt qn : Option String),
      addGarden env w qt (some "") qn = ((400, "missing_parameter"), w)) ∧
    (∀ env w (qt qs : Option String),
      addGarden env w qt qs (some "") = ((400, "missing_parameter"), w)) ∧
    (∀ env w (qs : Option String),
      removeGarden env w (some "") qs = ((400, "missing_parameter"), w)) ∧
    (∀ env w (qt : Option String),
      removeGarden env w qt (some "") = ((400, "missing_parameter"), w)) := by
  refine ⟨?_, ?_, ?_, ?_, ?_, ?_, ?_, ?_, ?_⟩ <;> intros <;>
    simp [requestNewToken, signSerialNumber, addGarden, removeGarden, truthy]

/-! ## C5: token caching and refresh -/

lemma requestNewToken_cached (signingKey serial : String) (w : World) (now : Int)
    (fresh tok : String) (ltt : Int)
    (hs : serial ≠ "") (hv : validSerial serial = true)
    (hlt : (w.db serial).last_token = some tok)
    (hltt : (w.db serial).last_token_time = some ltt)
    (hfresh : now - ltt < ttlRefreshThreshold) :
    requestNewToken signingKey (some serial) (some (getUniqueKey signingKey serial)) w now fresh =
      ((200, tok ++ ":" ++ toString (ltt + ttlRefreshThreshold - now) ++ ":cached"), w) := by
  unfold requestNewToken
  simp [truthy_some_of_ne _ hs, truthy_some_of_ne _ (getUniqueKey_ne_empty signingKey serial),
        hv, hlt, hltt, Garden.existsB]
  intro hcon
  exact absurd hcon (by omega)

lemma requestNewToken_issue_first (signingKey serial : String) (w : World) (now : Int)
    (fresh : String)
    (hs : serial ≠ "") (hv : validSerial serial = true)
    (hmiss : (w.db serial).last_token = none) :
    requestNewToken signingKey (some serial) (some (getUniqueKey signingKey serial)) w now fresh =
      ((200, fresh ++ ":" ++ toString ttlRefreshThreshold ++ ":new"),
       (w.setLastTokenTime serial now).setLastToken serial fresh) := by
  unfold requestNewToken
  simp [truthy_some_of_ne _ hs, truthy_some_of_ne _ (getUniqueKey_ne_empty signingKey serial),
        hv, hmiss]

lemma requestNewToken_issue_expired (signingKey serial : String) (w : World) (now : Int)
    (fresh tok : String) (ltt : Int)
    (hs : serial ≠ "") (hv : validSerial serial = true)
    (hlt : (w.db serial).last_token = some tok)
    (hltt : (w.db serial).last_token_time = some ltt)
    (hexp : ttlRefreshThreshold ≤ now - ltt) :
    requestNewToken signingKey (some serial) (some (getUniqueKey signingKey serial)) w now fresh =
      ((200, fresh ++ ":" ++ toString ttlRefreshThreshold ++ ":new"),
       (w.setLastTokenTime serial now).setLastToken serial fresh) := by
  unfold requestNewToken
  simp [truthy_some_of_ne _ hs, truthy_some_of_ne _ (getUniqueKey_ne_empty signingKey serial),
        hv, hlt, hltt, Garden.existsB]
  intro hcon
  exact absurd hcon (by omega)

/-- C5: with a valid serial and the correct derived key, a first request with
no previously stored token issues `f1` and stores it with its issuance time
`t0`; a second request within the 45-minute refresh threshold returns the same
cached token and leaves the world (hence both token fields) unchanged; a
request after the threshold has elapsed, for which the issuer produces a fresh
token `f2 ≠ f1`, returns `f2` and updates `last_token` and `last_token_time`
to the new issuance. -/
theorem requestNewToken_cache_then_refresh (signingKey serial : String) (w : World)
    (t0 t1 t2 : Int) (f1 f2 : String)
    (hs : serial ≠ "") (hv : validSerial serial = true)
    (hmiss : (w.db serial).last_token = none)
    (h1 : t1 - t0 < ttlRefreshThreshold)
    (h2 : ttlRefreshThreshold ≤ t2 - t0)
    (hf : f2 ≠ f1) :
    let key := getUniqueKey signingKey serial
    let r1 := requestNewToken signingKey (some serial) (some key) w t0 f1
    let w1 := r1.2
    r1.1 = (200, f1 ++ ":" ++ toString ttlRefreshThreshold ++ ":new") ∧
    (w1.db serial).last_token = some f1 ∧
    (w1.db serial).last_token_time = some t0 ∧
    requestNewToken signingKey (some serial) (some key) w1 t1 f2 =
      ((200, f1 ++ ":" ++ toString (t0 + ttlRefreshThreshold - t1) ++ ":cached"), w1) ∧
    (requestNewToken signingKey (some serial) (some key) w1 t2 f2).1 =
      (200, f2 ++ ":" ++ toString ttlRefreshThreshold ++ ":new") ∧
    f2 ≠ f1 ∧
    ((requestNewToken signingKey (some serial) (some key) w1 t2 f2).2.db serial).last_token =
      some f2 ∧
    ((requestNewToken signingKey (some serial) (some key) w1 t2 f2).2.db serial).last_token_time =
      some t2 := by
  intro key r1 w1
  have e1 := requestNewToken_issue_first signingKey serial w t0 f1 hs hv hmiss
  have hw1 : w1 = (w.setLastTokenTime serial t0).setLastToken serial f1 := by
    show r1.2 = _
    rw [show r1 = requestNewToken signingKey (some serial) (some key) w t0 f1 from rfl, e1]
  have hlt1 : (w1.db serial).last_token = some f1 := by
    rw [hw1]
    simp [World.setLastToken, World.setLastTokenTime, World.setGardenField]
  have hltt1 : (w1.db serial).last_token_time = some t0 := by
    rw [hw1]
    simp [World.setLastToken, World.setLastTokenTime, World.setGardenField]
  have e2 := requestNewToken_cached signingKey serial w1 t1 f2 f1 t0 hs hv hlt1 hltt1 (by omega)
  have e3 := requestNewToken_issue_expired signingKey serial w1 t2 f2 f1 t0 hs hv hlt1 hltt1 (by omega)
  refine ⟨?_, hlt1, hltt1, e2, ?_, hf, ?_, ?_⟩
  · show r1.1 = _
    rw [show r1 = requestNewToken signingKey (some serial) (some key) w t0 f1 from rfl, e1]
  · rw [e3]
  · rw [e3]
    simp [World.setLastToken, World.setLastTokenTime, World.setGardenField]
  · rw [e3]
    simp [World.setLastToken, World.setLastTokenTime, World.setGardenField]

def wC5 : World := ⟨fun _ => Garden.empty, fun _ => []⟩

/-- C5 witness: serial `"ab"`, first issuance at `t0 = 1000`, cached re-read at
`t1 = 1060` (60 s later), refresh at `t2 = 4000` (3000 s later). -/
theorem requestNewToken_cache_then_refresh_witness :
    let key := getUniqueKey "sk" "ab"
    let r1 := requestNewToken "sk" (some "ab") (some key) wC5 1000 "ta"
    let w1 := r1.2
    r1.1 = (200, "ta" ++ ":" ++ toString ttlRefreshThreshold ++ ":new") ∧
    (w1.db "ab").last_token = some "ta" ∧
    (w1.db "ab").last_token_time = some 1000 ∧
    requestNewToken "sk" (some "ab") (some key) w1 1060 "tb" =
      ((200, "ta" ++ ":" ++ toString (1000 + ttlRefreshThreshold - 1060) ++ ":cached"), w1) ∧
    (requestNewToken "sk" (some "ab") (some key) w1 4000 "tb").1 =
      (200, "tb" ++ ":" ++ toString ttlRefreshThreshold ++ ":new") ∧
    "tb" ≠ "ta" ∧
    ((requestNewToken "sk" (some "ab") (some key) w1 4000 "tb").2.db "ab").last_token =
      some "tb" ∧
    ((requestNewToken "sk" (some "ab") (some key) w1 4000 "tb").2.db "ab").last_token_time =
      some 4000 :=
  requestNewToken_cache_then_refresh "sk" "ab" wC5 1000 1060 4000 "ta" "tb"
    (by decide) (by decide) rfl (by decide) (by decide) (by decide)

/-! ## C6: `last_token` and `last_token_time` are written together -/

/-- Both token fields of every device record agree between two worlds. -/
def tokenFieldsEq (w w' : World) : Prop :=
  ∀ s, (w'.db s).last_token = (w.db s).last_token ∧
       (w'.db s).last_token_time = (w.db s).last_token_time

lemma tokenFieldsEq_refl (w : World) : tokenFieldsEq w w := fun _ => ⟨rfl, rfl⟩

lemma tokenFieldsEq_trans {w w' w'' : World}
    (h1 : tokenFieldsEq w w') (h2 : tokenFieldsEq w' w'') : tokenFieldsEq w w'' :=
  fun s => ⟨(h2 s).1.trans (h1 s).1, (h2 s).2.trans (h1 s).2⟩

lemma tokenFieldsEq_setClaimedBy (w : World) (serial uid : String) :
    tokenFieldsEq w (w.setClaimedBy serial uid) := by
  intro s
  unfold World.setClaimedBy World.setGardenField
  dsimp
  split <;> exact ⟨rfl, rfl⟩

lemma tokenFieldsEq_setNickname (w : World) (serial nick : String) :
    tokenFieldsEq w (w.setNickname serial nick) := by
  intro s
  unfold World.setNickname World.setGardenField
  dsimp
  split <;> exact ⟨rfl, rfl⟩

lemma tokenFieldsEq_removeClaimedBy (w : World) (serial : String) :
    tokenFieldsEq w (w.removeClaimedBy serial) := by
  intro s
  unfold World.removeClaimedBy World.setGardenField
  dsimp
  split <;> exact ⟨rfl, rfl⟩

lemma tokenFieldsEq_removeNickname (w : World) (serial : String) :
    tokenFieldsEq w (w.removeNickname serial) := by
  intro s
  unfold World.removeNickname World.setGardenField
  dsimp
  split <;> exact ⟨rfl, rfl⟩

lemma tokenFieldsEq_setClaims (w : World) (uid : String) (l : List String) :
    tokenFieldsEq w (w.setClaims uid l) := fun _ => ⟨rfl, rfl⟩

/-- The world carried by a claim/release body outcome (normal or thrown). -/
def outWorld : Except World (Resp × World) → World
  | .ok (_, w) => w
  | .error w => w

lemma addGardenBody_tokenFields (env : Env) (w : World) (t s n : String) :
    tokenFieldsEq w (outWorld (addGardenBody env w t s n)) := by
  unfold addGardenBody
  cases env.verify t with
  | error e => exact tokenFieldsEq_refl w
  | ok idT =>
    dsimp only
    repeat' split
    all_goals simp only [outWorld]
    all_goals
      first
      | exact tokenFieldsEq_refl _
      | exact tokenFieldsEq_setClaimedBy _ _ _
      | exact tokenFieldsEq_trans (tokenFieldsEq_setClaimedBy _ _ _)
          (tokenFieldsEq_setNickname _ _ _)

lemma removeGardenBody_tokenFields (env : Env) (w : World) (t s : String) :
    tokenFieldsEq w (outWorld (removeGardenBody env w t s)) := by
  unfold removeGardenBody
  cases env.verify t with
  | error e => exact tokenFieldsEq_refl w
  | ok idT =>
    dsimp only
    repeat' split
    all_goals simp only [outWorld]
    all_goals
      first
      | exact tokenFieldsEq_refl _
      | exact tokenFieldsEq_setClaims _ _ _
      | exact tokenFieldsEq_trans (tokenFieldsEq_setClaims _ _ _)
          (tokenFieldsEq_removeClaimedBy _ _)
      | exact tokenFieldsEq_trans
          (tokenFieldsEq_trans (tokenFieldsEq_setClaims _ _ _)
            (tokenFieldsEq_removeClaimedBy _ _))
          (tokenFieldsEq_removeNickname _ _)

lemma addGarden_tokenFields (env : Env) (w : World) (qt qs qn : Option String) :
    tokenFieldsEq w ((addGarden env w qt qs qn).2) := by
  unfold addGarden
  split
  · exact tokenFieldsEq_refl w
  · have h := addGardenBody_tokenFields env w (qt.getD "") (jsTrim (qs.getD ""))
      (jsTrim (qn.getD ""))
    cases hb : addGardenBody env w (qt.getD "") (jsTrim (qs.getD "")) (jsTrim (qn.getD "")) with
    | ok rw0 =>
      rw [hb] at h
      simpa [outWorld] using h
    | error w1 =>
      rw [hb] at h
      simpa [outWorld] using h

lemma removeGarden_tokenFields (env : Env) (w : World) (qt qs : Option String) :
    tokenFieldsEq w ((removeGarden env w qt qs).2) := by
  unfold removeGarden
  split
  · exact tokenFieldsEq_refl w
  · have h := removeGardenBody_tokenFields env w (qt.getD "") (jsTrim (qs.getD ""))
    cases hb : removeGardenBody env w (qt.getD "") (jsTrim (qs.getD "")) with
    | ok rw0 =>
      rw [hb] at h
      simpa [outWorld] using h
    | error w1 =>
      rw [hb] at h
      simpa [outWorld] using h

lemma requestNewToken_world (sk : String) (qs qk : Option String) (w : World)
    (now : Int) (fresh : String) :
    (requestNewToken sk qs qk w now fresh).2 = w ∨
    (requestNewToken sk qs qk w now fresh).2 =
      (w.setLastTokenTime (qs.getD "") now).setLastToken (qs.getD "") fresh := by
  unfold requestNewToken
  dsimp only
  repeat' split
  all_goals simp

/-- C6: the token fields are only ever written together. `requestNewToken`
either leaves both `last_token` and `last_token_time` of every record
unchanged (cache path and every failure path) or — on the issue path, for the
requested serial — sets both to the fresh token and the issuance time; and
neither `addGarden` nor `removeGarden` ever changes either field of any record
(`signSerialNumber` performs no store access at all: its embedding takes no
world). -/
theorem token_fields_written_together :
    (∀ sk (qs qk : Option String) w (now : Int) fresh (s : String),
      (((requestNewToken sk qs qk w now fresh).2.db s).last_token = (w.db s).last_token ∧
       ((requestNewToken sk qs qk w now fresh).2.db s).last_token_time =
         (w.db s).last_token_time) ∨
      (((requestNewToken sk qs qk w now fresh).2.db s).last_token = some fresh ∧
       ((requestNewToken sk qs qk w now fresh).2.db s).last_token_time = some now)) ∧
    (∀ env w (qt qs qn : Option String), tokenFieldsEq w ((addGarden env w qt qs qn).2)) ∧
    (∀ env w (qt qs : Option String), tokenFieldsEq w ((removeGarden env w qt qs).2)) := by
  refine ⟨?_, addGarden_tokenFields, removeGarden_tokenFields⟩
  intro sk qs qk w now fresh s
  rcases requestNewToken_world sk qs qk w now fresh with h | h
  · left
    rw [h]
    exact ⟨rfl, rfl⟩
  · rw [h]
    by_cases hs : s = qs.getD ""
    · right
      subst hs
      simp [World.setLastToken, World.setLastTokenTime, World.setGardenField]
    · left
      simp [World.setLastToken, World.setLastTokenTime, World.setGardenField, hs]

/-! ## C3 (amended): the limit check rejects exactly when more than 10 serials -/

lemma addGardenBody_ne_too_many (env : Env) (w : World) (t s n : String) (idT : IdToken)
    (hv : env.verify t = .ok idT)
    (hle : ∀ l, idT.claimedGardens = some l → l.length ≤ 10) :
    ∀ r w1, addGardenBody env w t s n = .ok (r, w1) → r ≠ (403, "too_many_gardens") := by
  intro r w1 hb hr
  unfold addGardenBody at hb
  rw [hv] at hb
  try dsimp only at hb
  rcases hcg : idT.claimedGardens with _ | l
  · rw [hcg] at hb
    try dsimp only at hb
    repeat' split at hb
    all_goals simp_all
  · have hll := hle l hcg
    rw [hcg] at hb
    try dsimp only at hb
    rw [decide_eq_false (Nat.not_lt.mpr hll)] at hb
    try dsimp only at hb
    repeat' split at hb
    all_goals simp_all

/-- C3 (amended): with a verifiable token, `addGarden` answers
`too_many_gardens` (HTTP 403) precisely when the token's claimed-serial set is
present with size strictly greater than 10 — so an account with 11 or more
claimed serials is rejected, while accounts with 10 (or 9) pass the limit
check. The original claim said size 10 is already rejected; the code's check
is `claimedGardens.length > 10`. -/
theorem addGarden_limit_rejects_iff_gt_ten (env : Env) (w : World) (qt qs qn : Option String)
    (idT : IdToken)
    (hqt : truthy qt = true) (hqs : truthy qs = true) (hqn : truthy qn = true)
    (hv : env.verify (qt.getD "") = .ok idT) :
    (∀ l, idT.claimedGardens = some l → l.length > 10 →
      addGarden env w qt qs qn = ((403, "too_many_gardens"), w)) ∧
    ((∀ l, idT.claimedGardens = some l → l.length ≤ 10) →
      (addGarden env w qt qs qn).1 ≠ (403, "too_many_gardens")) := by
  constructor
  · intro l hcg hlen
    unfold addGarden addGardenBody
    simp [hqt, hqs, hqn, hv, hcg, hlen]
  · intro hle h
    unfold addGarden at h
    simp only [hqt, hqs, hqn, Bool.not_true, Bool.or_self, Bool.or_false, Bool.false_or,
      Bool.false_eq_true, if_false] at h
    rcases hb : addGardenBody env w (qt.getD "") (jsTrim (qs.getD "")) (jsTrim (qn.getD ""))
      with w1 | ⟨r, w1⟩
    · rw [hb] at h
      simp at h
    · rw [hb] at h
      dsimp only at h
      exact addGardenBody_ne_too_many env w (qt.getD "") (jsTrim (qs.getD ""))
        (jsTrim (qn.getD "")) idT hv hle r w1 hb h

def envC3w : Env :=
  ⟨fun t =>
    if t = "tok" then
      .ok ⟨"u1", some ["g1", "g2", "g3", "g4", "g5", "g6", "g7", "g8", "g9", "g10", "g11"]⟩
    else .error (),
   fun _ => true, fun _ => true, fun _ _ => true, true⟩

def wC3w : World := ⟨fun _ => Garden.empty, fun _ => []⟩

/-- C3 witness: an account holding 11 claimed serials is rejected with
`too_many_gardens`. -/
theorem addGarden_limit_rejects_iff_gt_ten_witness :
    addGarden envC3w wC3w (some "tok") (some "gx") (some "n") =
      ((403, "too_many_gardens"), wC3w) :=
  (addGarden_limit_rejects_iff_gt_ten envC3w wC3w (some "tok") (some "gx") (some "n")
      ⟨"u1", some ["g1", "g2", "g3", "g4", "g5", "g6", "g7", "g8", "g9", "g10", "g11"]⟩
      (by decide) (by decide) (by decide) rfl).1
    ["g1", "g2", "g3", "g4", "g5", "g6", "g7", "g8", "g9", "g10", "g11"] rfl (by decide)

/-! ## C9: a re-claim by the current owner succeeds and renames -/

/-- C9: when the target record exists and its `claimed_by` already equals the
requesting account's uid, and the limit and nickname checks pass and all
external calls succeed, `addGarden` does *not* answer
`garden_already_claimed`: it returns `success`, re-sets `claimed_by` to the
same uid and overwrites the nickname. -/
theorem addGarden_reclaim_by_owner_renames (env : Env) (w : World)
    (t serial nickname : String) (idT : IdToken)
    (ht : t ≠ "") (hs : serial ≠ "") (hn : nickname ≠ "")
    (hts : jsTrim serial = serial) (htn : jsTrim nickname = nickname)
    (hv : env.verify t = .ok idT)
    (hlim : ∀ l, idT.claimedGardens = some l → l.length ≤ 10)
    (hnick : nickLoop env w nickname (idT.claimedGardens.getD []) = .ok false)
    (hg : env.gardenGetOk serial = true)
    (hex : (w.db serial).existsB = true)
    (hown : (w.db serial).claimed_by = some idT.uid)
    (hw1 : env.writeOk serial "claimed_by" = true)
    (hw2 : env.writeOk serial "nickname" = true)
    (hc : env.claimsSetOk = true) :
    (addGarden env w (some t) (some serial) (some nickname)).1 = (200, "success") ∧
    (((addGarden env w (some t) (some serial) (some nickname)).2).db serial).claimed_by =
      some idT.uid ∧
    (((addGarden env w (some t) (some serial) (some nickname)).2).db serial).nickname =
      some nickname := by
  have hlimb : (match idT.claimedGardens with
      | some l => decide (l.length > 10)
      | none => false) = false := by
    rcases hcg : idT.claimedGardens with _ | l
    · rfl
    · exact decide_eq_false (Nat.not_lt.mpr (hlim l hcg))
  have hmain : addGarden env w (some t) (some serial) (some nickname) =
      ((200, "success"),
       ((w.setClaimedBy serial idT.uid).setNickname serial nickname).setClaims idT.uid
         (claimedFilter idT.claimedGardens serial ++ [serial])) := by
    unfold addGarden addGardenBody
    simp [truthy_some_of_ne _ ht, truthy_some_of_ne _ hs, truthy_some_of_ne _ hn,
          hts, htn, hv, hlimb, hnick, hg, hex, hown, hw1, hw2, hc]
  rw [hmain]
  refine ⟨rfl, ?_, ?_⟩
  · simp [World.setClaims, World.setNickname, World.setClaimedBy, World.setGardenField]
  · simp [World.setClaims, World.setNickname, World.setClaimedBy, World.setGardenField]

def envC9 : Env :=
  ⟨fun t => if t = "tok" then .ok ⟨"u1", some ["g1"]⟩ else .error (),
   fun _ => true, fun _ => true, fun _ _ => true, true⟩

def wC9 : World :=
  ⟨fun s => if s = "g1" then ⟨some "u1", some "old", none, none, some 0⟩ else Garden.empty,
   fun _ => []⟩

/-- C9 witness: `u1` re-claims its own garden `"g1"` under the new nickname
`"newname"`; the request succeeds, keeps `claimed_by = u1` and renames. -/
theorem addGarden_reclaim_by_owner_renames_witness :
    (addGarden envC9 wC9 (some "tok") (some "g1") (some "newname")).1 = (200, "success") ∧
    (((addGarden envC9 wC9 (some "tok") (some "g1") (some "newname")).2).db "g1").claimed_by =
      some "u1" ∧
    (((addGarden envC9 wC9 (some "tok") (some "g1") (some "newname")).2).db "g1").nickname =
      some "newname" :=
  addGarden_reclaim_by_owner_renames envC9 wC9 "tok" "g1" "newname" ⟨"u1", some ["g1"]⟩
    (by decide) (by decide) (by decide) (by decide) (by decide) rfl
    (by intro l hl; injection hl with h2; subst h2; decide)
    rfl rfl (by decide) rfl rfl rfl rfl

/-! ## C8: every exception in the claim/release try-scope maps to invalid_token -/

/-- C8: in `addGarden` and `removeGarden`, once the missing-parameter check has
passed, every exception raised by an external call — token verification
failure, any document-store read or write failure, or a custom-claims write
failure — yields HTTP 400 with body `invalid_token` and no other error code;
side effects performed before the throw persist in the resulting world. The
conjuncts cover every throw site of the two handlers. -/
theorem claim_release_exceptions_map_to_invalid_token (env : Env) (w : World)
    (qt qs qn : Option String)
    (hqt : truthy qt = true) (hqs : truthy qs = true) (hqn : truthy qn = true) :
    (env.verify (qt.getD "") = .error () →
      addGarden env w qt qs qn = ((400, "invalid_token"), w) ∧
      removeGarden env w qt qs = ((400, "invalid_token"), w)) ∧
    (∀ idT, env.verify (qt.getD "") = .ok idT →
      (match idT.claimedGardens with
       | some l => decide (l.length > 10)
       | none => false) = false →
      (nickLoop env w (jsTrim (qn.getD "")) (idT.claimedGardens.getD []) = .error () →
        addGarden env w qt qs qn = ((400, "invalid_token"), w)) ∧
      (nickLoop env w (jsTrim (qn.getD "")) (idT.claimedGardens.getD []) = .ok false →
        (env.gardenGetOk (jsTrim (qs.getD "")) = false →
          addGarden env w qt qs qn = ((400, "invalid_token"), w)) ∧
        (env.gardenGetOk (jsTrim (qs.getD "")) = true →
          (w.db (jsTrim (qs.getD ""))).existsB = true →
          (w.db (jsTrim (qs.getD ""))).claimed_by = some idT.uid →
          (env.writeOk (jsTrim (qs.getD "")) "claimed_by" = false →
            addGarden env w qt qs qn = ((400, "invalid_token"), w)) ∧
          (env.writeOk (jsTrim (qs.getD "")) "claimed_by" = true →
            (env.writeOk (jsTrim (qs.getD "")) "nickname" = false →
              addGarden env w qt qs qn =
                ((400, "invalid_token"), w.setClaimedBy (jsTrim (qs.getD "")) idT.uid)) ∧
            (env.writeOk (jsTrim (qs.getD "")) "nickname" = true →
              env.claimsSetOk = false →
              addGarden env w qt qs qn =
                ((400, "invalid_token"),
                 (w.setClaimedBy (jsTrim (qs.getD "")) idT.uid).setNickname
                   (jsTrim (qs.getD "")) (jsTrim (qn.getD "")))))))) ∧
    (∀ idT, env.verify (qt.getD "") = .ok idT →
      (env.gardenGetOk (jsTrim (qs.getD "")) = false →
        removeGarden env w qt qs = ((400, "invalid_token"), w)) ∧
      (env.gardenGetOk (jsTrim (qs.getD "")) = true →
        (w.db (jsTrim (qs.getD ""))).existsB = true →
        (env.claimsSetOk = false →
          removeGarden env w qt qs = ((400, "invalid_token"), w)) ∧
        (env.claimsSetOk = true →
          (w.db (jsTrim (qs.getD ""))).claimed_by = some idT.uid →
          (env.writeOk (jsTrim (qs.getD "")) "claimed_by" = false →
            removeGarden env w qt qs =
              ((400, "invalid_token"),
               w.setClaims idT.uid
                 (claimedFilter idT.claimedGardens (jsTrim (qs.getD ""))))) ∧
          (env.writeOk (jsTrim (qs.getD "")) "claimed_by" = true →
            env.writeOk (jsTrim (qs.getD "")) "nickname" = false →
            removeGarden env w qt qs =
              ((400, "invalid_token"),
               (w.setClaims idT.uid
                 (claimedFilter idT.claimedGardens (jsTrim (qs.getD "")))).removeClaimedBy
                 (jsTrim (qs.getD ""))))))) := by
  refine ⟨?_, ?_, ?_⟩
  · intro hvf
    constructor
    · unfold addGarden addGardenBody
      simp [hqt, hqs, hqn, hvf]
    · unfold removeGarden removeGardenBody
      simp [hqt, hqs, hvf]
  · intro idT hv hlim
    constructor
    · intro hnl
      unfold addGarden addGardenBody
      simp [hqt, hqs, hqn, hv, hlim, hnl]
    · intro hnl
      constructor
      · intro hgg
        unfold addGarden addGardenBody
        simp [hqt, hqs, hqn, hv, hlim, hnl, hgg]
      · intro hgg hex hown
        constructor
        · intro hw1
          unfold addGarden addGardenBody
          simp [hqt, hqs, hqn, hv, hlim, hnl, hgg, hex, hown, hw1]
        · intro hw1
          constructor
          · intro hw2
            unfold addGarden addGardenBody
            simp [hqt, hqs, hqn, hv, hlim, hnl, hgg, hex, hown, hw1, hw2]
          · intro hw2 hcs
            unfold addGarden addGardenBody
            simp [hqt, hqs, hqn, hv, hlim, hnl, hgg, hex, hown, hw1, hw2, hcs]
  · intro idT hv
    constructor
    · intro hgg
      unfold removeGarden removeGardenBody
      simp [hqt, hqs, hv, hgg]
    · intro hgg hex
      constructor
      · intro hcs
        unfold removeGarden removeGardenBody
        simp [hqt, hqs, hv, hgg, hex, hcs]
      · intro hcs hown
        constructor
        · intro hw1
          unfold removeGarden removeGardenBody
          simp [hqt, hqs, hv, hgg, hex, hcs, hown, hw1]
        · intro hw1 hw2
          unfold removeGarden removeGardenBody
          simp [hqt, hqs, hv, hgg, hex, hcs, hown, hw1, hw2]

def envC8 : Env :=
  ⟨fun _ => .error (), fun _ => true, fun _ => true, fun _ _ => true, true⟩

def wC8 : World := ⟨fun _ => Garden.empty, fun _ => []⟩

/-- C8 witness: an identity provider that rejects every token makes both
handlers answer `invalid_token` with HTTP 400. -/
theorem claim_release_exceptions_witness :
    addGarden envC8 wC8 (some "t") (some "s") (some "n") = ((400, "invalid_token"), wC8) ∧
    removeGarden envC8 wC8 (some "t") (some "s") = ((400, "invalid_token"), wC8) :=
  (claim_release_exceptions_map_to_invalid_token envC8 wC8 (some "t") (some "s") (some "n")
    (by decide) (by decide) (by decide)).1 rfl

end IotAuth
